import Mathlib

/-!
Shallow embedding of `wxdatatypes.py` (python-metar): classes `temperature`,
`pressure`, `speed`, `distance`, `direction`.

Modelling conventions:
* Python floats are modelled as `ℚ`: each arithmetic operation is exact
  rather than rounded to binary64.  Formatted output models `%.Nf` as
  round-half-to-even on the rational value.  Properties whose truth depends
  on the accumulated IEEE-double rounding of the source's arithmetic (e.g.
  tolerance bounds on conversion round trips over the whole float range)
  are outside this embedding and are not asserted here.
* Python exceptions are modelled by the `PyErr` type; a Python function that
  can raise is embedded as a function into `PRes α`.  `PyErr.noneReturn`
  marks the places where the Python function falls off its end and returns
  `None` instead of a number/string (all of them unreachable for instances
  built by the constructors).
* A constructor argument that may be a string token or a number
  (`float(value)` accepts both) is modelled by `PyVal`.
* `float(...)` applied to a string is modelled by `pyFloat` (the finite
  decimal-literal grammar: optional surrounding whitespace, optional sign,
  digits with optional point, optional exponent; `inf`/`nan` spellings are
  not modelled).
* Python string truthiness (`if not units:`) is modelled explicitly: `None`
  and the empty string are falsy.
* `temperature._value` is an `Option ℚ` because the source can leave the
  attribute unset (its `except ValueError` branch silently does nothing for
  tokens not starting with `'M'`); reading the missing attribute is
  `PyErr.attributeError`.
* Error messages carried by the Python exceptions are elided.
-/

/-- The kinds of Python exception that the source can raise. -/
inductive PyErr where
  /-- `UnitsError` (source line 10). -/
  | unitsError
  /-- `ValueError` (bad numeric token or bad gtlt value). -/
  | valueError
  /-- `TypeError` (e.g. dividing a `str` by a `float`, source line 146). -/
  | typeError
  /-- `NameError` (reading a local variable that was never assigned). -/
  | nameError
  /-- `AttributeError` (reading an instance attribute that was never set). -/
  | attributeError
  /-- `ZeroDivisionError` (`float(num)/float(den)` with `den == 0`). -/
  | zeroDivError
  /-- The Python function falls off its end and returns `None`. -/
  | noneReturn
  deriving DecidableEq, Repr

/-- Result of a Python computation that may raise. -/
inductive PRes (α : Type) where
  | ok (a : α)
  | err (e : PyErr)
  deriving DecidableEq, Repr

/-- Exception propagation. -/
def PRes.bind {α β : Type} (r : PRes α) (f : α → PRes β) : PRes β :=
  match r with
  | .ok a => f a
  | .err e => .err e

/-- A value passed to a constructor: either a string token or a number. -/
inductive PyVal where
  | str (s : String)
  | num (q : ℚ)
  deriving DecidableEq, Repr

/-- ASCII uppercase of one character (`str.upper` on the unit/token
alphabet used by the source). -/
def upChar (c : Char) : Char :=
  match c with
  | 'a' => 'A' | 'b' => 'B' | 'c' => 'C' | 'd' => 'D' | 'e' => 'E' | 'f' => 'F'
  | 'g' => 'G' | 'h' => 'H' | 'i' => 'I' | 'j' => 'J' | 'k' => 'K' | 'l' => 'L'
  | 'm' => 'M' | 'n' => 'N' | 'o' => 'O' | 'p' => 'P' | 'q' => 'Q' | 'r' => 'R'
  | 's' => 'S' | 't' => 'T' | 'u' => 'U' | 'v' => 'V' | 'w' => 'W' | 'x' => 'X'
  | 'y' => 'Y' | 'z' => 'Z' | c => c

/-- Python `units.upper()`. -/
def upStr (s : String) : String :=
  ⟨s.data.map upChar⟩

/-- The whitespace characters of Python's `str.strip` / regex `\s`. -/
def isWs (c : Char) : Bool :=
  c = ' ' ∨ c = '\t' ∨ c = '\n' ∨ c = '\r' ∨ c = '\x0b' ∨ c = '\x0c'

/-- Drop leading whitespace. -/
def dropWs : List Char → List Char
  | [] => []
  | c :: rest => if isWs c then dropWs rest else c :: rest

/-- Strip whitespace from both ends. -/
def trimWs (cs : List Char) : List Char :=
  (dropWs (dropWs cs).reverse).reverse

/-- Split off a maximal run of decimal digits. -/
def takeDigits : List Char → List Char × List Char
  | [] => ([], [])
  | c :: rest =>
    if c.isDigit then
      let (a, b) := takeDigits rest
      (c :: a, b)
    else ([], c :: rest)

/-- Split off a maximal run of whitespace. -/
def takeWs : List Char → List Char × List Char
  | [] => ([], [])
  | c :: rest =>
    if isWs c then
      let (a, b) := takeWs rest
      (c :: a, b)
    else ([], c :: rest)

/-- Value of a digit string (as `int(...)` would compute on it). -/
def digitsToNat (cs : List Char) : ℕ :=
  cs.foldl (fun a c => 10 * a + (c.toNat - 48)) 0

/-- Optional leading sign; returns (isNegative, remainder). -/
def parseSign : List Char → Bool × List Char
  | '+' :: r => (false, r)
  | '-' :: r => (true, r)
  | cs => (false, cs)

/-- Optional exponent suffix and end-of-token check of a float literal. -/
def expPart (neg : Bool) (mant : ℚ) (rest : List Char) : Option ℚ :=
  match rest with
  | [] => some (if neg then -mant else mant)
  | 'e' :: r =>
    let (eneg, r1) := parseSign r
    let (eds, r2) := takeDigits r1
    if eds.isEmpty ∨ ¬ r2.isEmpty then none
    else
      let e : ℤ := if eneg then -(digitsToNat eds : ℤ) else (digitsToNat eds : ℤ)
      some ((if neg then -mant else mant) * (10 : ℚ) ^ e)
  | 'E' :: r =>
    let (eneg, r1) := parseSign r
    let (eds, r2) := takeDigits r1
    if eds.isEmpty ∨ ¬ r2.isEmpty then none
    else
      let e : ℤ := if eneg then -(digitsToNat eds : ℤ) else (digitsToNat eds : ℤ)
      some ((if neg then -mant else mant) * (10 : ℚ) ^ e)
  | _ => none

/-- Float-literal parse of a whitespace-trimmed character list. -/
def pyFloatCore (cs : List Char) : Option ℚ :=
  let (neg, cs1) := parseSign cs
  let (intDs, cs2) := takeDigits cs1
  match cs2 with
  | '.' :: r =>
    let (fracDs, cs3) := takeDigits r
    if intDs.isEmpty ∧ fracDs.isEmpty then none
    else expPart neg ((digitsToNat (intDs ++ fracDs) : ℚ) / (10 : ℚ) ^ fracDs.length) cs3
  | _ =>
    if intDs.isEmpty then none
    else expPart neg (digitsToNat intDs : ℚ) cs2

/-- Python `float(...)` on a string (finite decimal literals). -/
def pyFloat (s : String) : Option ℚ :=
  pyFloatCore (trimWs s.data)

/-- Python `float(...)` on a constructor argument. -/
def pyFloatConv : PyVal → Option ℚ
  | .num q => some q
  | .str s => pyFloat s

/-- `FRACTION_RE = ^((?P<int>\d+)\s+)?(?P<num>\d+)/(?P<den>\d+)$` (line 16):
returns (optional integer part, numerator, denominator). -/
def parseFraction (s : String) : Option (Option ℕ × ℕ × ℕ) :=
  let (d1, r1) := takeDigits s.data
  if d1.isEmpty then none
  else
    match r1 with
    | '/' :: r2 =>
      let (d3, r3) := takeDigits r2
      if d3.isEmpty ∨ ¬ r3.isEmpty then none
      else some (none, digitsToNat d1, digitsToNat d3)
    | _ =>
      let (ws, r2) := takeWs r1
      if ws.isEmpty then none
      else
        let (d2, r3) := takeDigits r2
        match r3 with
        | '/' :: r4 =>
          let (d3, r5) := takeDigits r4
          if d2.isEmpty ∨ d3.isEmpty ∨ ¬ r5.isEmpty then none
          else some (some (digitsToNat d1), digitsToNat d2, digitsToNat d3)
        | _ => none

/-- Python `int(...)` on a float: truncation toward zero. -/
def pyTrunc (q : ℚ) : ℤ :=
  if 0 ≤ q then ⌊q⌋ else ⌈q⌉

/-- Python 2 `round(...)`: round half away from zero. -/
def pyRound (q : ℚ) : ℤ :=
  if 0 ≤ q then ⌊q + 1/2⌋ else -⌊-q + 1/2⌋

/-- Left-pad a string with zeros to the given length. -/
def padZeros (s : String) (l : ℕ) : String :=
  ⟨List.replicate (l - s.length) '0'⟩ ++ s

/-- Round a nonnegative rational to the nearest integer, ties to even
(the rounding of C `printf`, which Python's `%` float formatting uses). -/
def roundHalfEven (x : ℚ) : ℤ :=
  if x - ⌊x⌋ > 1/2 then ⌊x⌋ + 1
  else if x - ⌊x⌋ < 1/2 then ⌊x⌋
  else if ⌊x⌋ % 2 = 0 then ⌊x⌋ else ⌊x⌋ + 1

/-- Decimal rendering of a magnitude already scaled by `10^p`. -/
def fmtScaled (p n : ℕ) : String :=
  toString (n / 10 ^ p) ++ (if p = 0 then "" else "." ++ padZeros (toString (n % 10 ^ p)) p)

/-- Python `"%.<p>f" % q`. -/
def fmtFixed (p : ℕ) (q : ℚ) : String :=
  let a := if q < 0 then -q else q
  let body := fmtScaled p (roundHalfEven (a * (10 : ℚ) ^ p)).toNat
  if q < 0 then "-" ++ body else body

/-! ## temperature (source lines 20-69) -/

/-- `temperature.legal_units` (line 22). -/
def tempLegal : List String := ["F", "C", "K"]

/-- State of a `temperature` instance; `value = none` models the instance
attribute `_value` never having been assigned. -/
structure Temperature where
  units : String
  value : Option ℚ
  deriving DecidableEq, Repr

/-- `temperature.__init__` (lines 24-32).  Note the silent fall-through:
a string token that is not a float literal and does not start with `'M'`
leaves `_value` unset and the constructor returns normally. -/
def tempInit (v : PyVal) (units : String := "C") : PRes Temperature :=
  if upStr units ∈ tempLegal then
    let uu := upStr units
    match v with
    | .num q => .ok ⟨uu, some q⟩
    | .str s =>
      match pyFloat s with
      | some x => .ok ⟨uu, some x⟩
      | none =>
        match s.data with
        | 'M' :: cs =>
          match pyFloat ⟨cs⟩ with
          | some x => .ok ⟨uu, some (-x)⟩
          | none => .err .valueError
        | _ => .ok ⟨uu, none⟩
  else .err .unitsError

/-- `temperature.value` (lines 34-53). -/
def tempValue (t : Temperature) (units : Option String := none) : PRes ℚ :=
  match units with
  | none =>
    match t.value with
    | some v => .ok v
    | none => .err .attributeError
  | some u =>
    if upStr u ∈ tempLegal then
      let uu := upStr u
      match t.value with
      | none => .err .attributeError
      | some v =>
        let cel : PRes ℚ :=
          if t.units = "C" then .ok v
          else if t.units = "F" then .ok ((v - 32.0) / 1.8)
          else if t.units = "K" then .ok (v - 273.15)
          else .err .nameError
        PRes.bind cel fun c =>
          if uu = "C" then .ok c
          else if uu = "K" then .ok (273.15 + c)
          else if uu = "F" then .ok (32.0 + c * 1.8)
          else .err .noneReturn
    else .err .unitsError

/-- `temperature.string` (lines 55-69). -/
def tempString (t : Temperature) (units : Option String := none) : PRes String :=
  let res : PRes String :=
    match units with
    | none => .ok t.units
    | some u => if upStr u ∈ tempLegal then .ok (upStr u) else .err .unitsError
  PRes.bind res fun uu =>
    PRes.bind (tempValue t (some uu)) fun v =>
      if uu = "C" then .ok (fmtFixed 1 v ++ " C")
      else if uu = "F" then .ok (fmtFixed 1 v ++ " F")
      else if uu = "K" then .ok (fmtFixed 1 v ++ " K")
      else .err .noneReturn

/-! ## pressure (source lines 71-116) -/

/-- `pressure.legal_units` (line 73). -/
def pressureLegal : List String := ["MB", "HPA", "IN"]

/-- State of a `pressure` instance. -/
structure Pressure where
  units : String
  value : ℚ
  deriving DecidableEq, Repr

/-- `pressure.__init__` (lines 75-79). -/
def pressureInit (v : PyVal) (units : String := "MB") : PRes Pressure :=
  if upStr units ∈ pressureLegal then
    match pyFloatConv v with
    | some x => .ok ⟨upStr units, x⟩
    | none => .err .valueError
  else .err .unitsError

/-- `pressure.value` (lines 81-100). -/
def pressureValue (p : Pressure) (units : Option String := none) : PRes ℚ :=
  match units with
  | none => .ok p.value
  | some u =>
    if upStr u ∈ pressureLegal then
      let uu := upStr u
      if uu = p.units then .ok p.value
      else
        let mb := if p.units = "IN" then p.value * 33.86398 else p.value
        if uu = "MB" ∨ uu = "HPA" then .ok mb
        else if uu = "IN" then .ok (mb / 33.86398)
        else .err .unitsError
    else .err .unitsError

/-- `pressure.string` (lines 102-116).  Note `if not units:` — the empty
string is treated like an absent argument. -/
def pressureString (p : Pressure) (units : Option String := none) : PRes String :=
  let res : PRes String :=
    match units with
    | none => .ok p.units
    | some u =>
      if u = "" then .ok p.units
      else if upStr u ∈ pressureLegal then .ok (upStr u) else .err .unitsError
  PRes.bind res fun uu =>
    PRes.bind (pressureValue p (some uu)) fun v =>
      if uu = "MB" then .ok (fmtFixed 1 v ++ " mb")
      else if uu = "HPA" then .ok (fmtFixed 1 v ++ " hPa")
      else if uu = "IN" then .ok (fmtFixed 2 v ++ " inches")
      else .err .noneReturn

/-! ## speed (source lines 118-183) -/

/-- `speed.legal_units` (line 120). -/
def speedLegal : List String := ["KT", "MPS", "KMH", "MPH"]

/-- `legal_gtlt` check shared by `speed.__init__` and `distance.__init__`
(lines 130-131 and 207-208): a truthy gtlt value must be `">"` or `"<"`. -/
def gtltCheck (g : Option String) : PRes (Option String) :=
  match g with
  | none => .ok none
  | some s =>
    if s = "" then .ok (some s)
    else if s = ">" ∨ s = "<" then .ok (some s)
    else .err .valueError

/-- State of a `speed` instance. -/
structure Speed where
  units : String
  gtlt : Option String
  value : ℚ
  deriving DecidableEq, Repr

/-- `speed.__init__` (lines 123-133).  Note `if not units:` — an absent or
empty unit string silently selects the default `"MPS"`. -/
def speedInit (v : PyVal) (units : Option String := none) (gtlt : Option String := none) :
    PRes Speed :=
  let res : PRes String :=
    match units with
    | none => .ok "MPS"
    | some u =>
      if u = "" then .ok "MPS"
      else if upStr u ∈ speedLegal then .ok (upStr u) else .err .unitsError
  PRes.bind res fun uu =>
    PRes.bind (gtltCheck gtlt) fun g =>
      match pyFloatConv v with
      | some x => .ok ⟨uu, g, x⟩
      | none => .err .valueError

/-- Target-unit dispatch of `speed.value` (lines 153-160), applied to the
meters-per-second intermediate. -/
def speedTarget (uu : String) (m : ℚ) : PRes ℚ :=
  if uu = "KMH" then .ok (m * 3.6)
  else if uu = "KT" then .ok (m / 0.514444)
  else if uu = "MPH" then .ok (m / 0.447000)
  else if uu = "MPS" then .ok m
  else .err .noneReturn

/-- `speed.value` (lines 135-160).  Two source defects are modelled
faithfully: when the instance was constructed in KMH the source evaluates
`self._units/3.6` — a `str` divided by a `float`, a `TypeError` (line 146);
when constructed in MPH it assigns `mbs_value` but every branch of the
target dispatch then reads the never-assigned `mps_value` — a `NameError`
(lines 150, 153-160). -/
def speedValue (s : Speed) (units : Option String := none) : PRes ℚ :=
  match units with
  | none => .ok s.value
  | some u =>
    if u = "" then .ok s.value
    else if upStr u ∈ speedLegal then
      let uu := upStr u
      if uu = s.units then .ok s.value
      else if s.units = "KMH" then .err .typeError
      else if s.units = "KT" then speedTarget uu (s.value * 0.514444)
      else if s.units = "MPH" then .err .nameError
      else speedTarget uu s.value
    else .err .unitsError

/-- `speed.string` (lines 162-183). -/
def speedString (s : Speed) (units : Option String := none) : PRes String :=
  let res : PRes String :=
    match units with
    | none => .ok s.units
    | some u =>
      if u = "" then .ok s.units
      else if upStr u ∈ speedLegal then .ok (upStr u) else .err .unitsError
  PRes.bind res fun uu =>
    PRes.bind (speedValue s (some uu)) fun v =>
      let body : PRes String :=
        if uu = "KMH" then .ok (fmtFixed 0 v ++ " km/h")
        else if uu = "KT" then .ok (fmtFixed 0 v ++ " knots")
        else if uu = "MPH" then .ok (fmtFixed 0 v ++ " mph")
        else if uu = "MPS" then .ok (fmtFixed 1 v ++ " mps")
        else .err .nameError
      PRes.bind body fun t =>
        if s.gtlt = some ">" then .ok ("greater than " ++ t)
        else if s.gtlt = some "<" then .ok ("less than " ++ t)
        else .ok t

/-! ## distance (source lines 185-283) -/

/-- `distance.legal_units` (line 187). -/
def distLegal : List String := ["SM", "MI", "M", "KM", "FT"]

/-- State of a `distance` instance; `num`/`den` are the stored fraction
parts (`None` when the token was a plain decimal). -/
structure Distance where
  units : String
  gtlt : Option String
  value : ℚ
  num : Option ℕ
  den : Option ℕ
  deriving DecidableEq, Repr

/-- Lines 198-206 of `distance.__init__`: a token starting with `'M'`/`'P'`
is stripped and forces the qualifier (the `try/except` swallows the
`AttributeError` raised when the value is a number). -/
def stripQualL : List Char → Option String → List Char × Option String
  | 'M' :: cs, _ => (cs, some "<")
  | 'P' :: cs, _ => (cs, some ">")
  | cs, g => (cs, g)

/-- The same prefix handling lifted to the constructor argument: numbers
have no `startswith`, so they pass through (the `except` swallows the
`AttributeError`). -/
def stripQual (v : PyVal) (g : Option String) : PyVal × Option String :=
  match v with
  | .num _ => (v, g)
  | .str s => (.str ⟨(stripQualL s.data g).1⟩, (stripQualL s.data g).2)

/-- Lines 210-223 of `distance.__init__`: plain float parse, falling back
to the fraction grammar; returns (value, numerator?, denominator?).  The
integer group, when matched, is added to the value (`if df['int']:` — the
matched digit string is always truthy), i.e. the value gains `i.getD 0`. -/
def distParseNum (v : PyVal) : PRes (ℚ × Option ℕ × Option ℕ) :=
  match pyFloatConv v with
  | some x => .ok (x, none, none)
  | none =>
    match v with
    | .num _ => .err .valueError
    | .str s =>
      match parseFraction s with
      | none => .err .valueError
      | some (i, n, d) =>
        if d = 0 then .err .zeroDivError
        else
          .ok ((n : ℚ) / (d : ℚ) + ((i.getD 0 : ℕ) : ℚ), some n, some d)

/-- Unit resolution of `distance.__init__` (lines 191-196). -/
def distUnitsResolve (units : Option String) : PRes String :=
  match units with
  | none => .ok "M"
  | some u =>
    if u = "" then .ok "M"
    else if upStr u ∈ distLegal then .ok (upStr u) else .err .unitsError

/-- `distance.__init__` (lines 190-223). -/
def distInit (v : PyVal) (units : Option String := none) (gtlt : Option String := none) :
    PRes Distance :=
  PRes.bind (distUnitsResolve units) fun uu =>
    let vg := stripQual v gtlt
    PRes.bind (gtltCheck vg.2) fun g =>
      PRes.bind (distParseNum vg.1) fun x =>
        .ok ⟨uu, g, x.1, x.2.1, x.2.2⟩

/-- `distance.value` (lines 225-250). -/
def distValue (d : Distance) (units : Option String := none) : PRes ℚ :=
  match units with
  | none => .ok d.value
  | some u =>
    if u = "" then .ok d.value
    else if upStr u ∈ distLegal then
      let uu := upStr u
      if uu = d.units then .ok d.value
      else
        let m := if d.units = "SM" ∨ d.units = "MI" then d.value * 1609.344
                 else if d.units = "FT" then d.value / 3.28084
                 else if d.units = "KM" then d.value * 1000
                 else d.value
        if uu = "SM" ∨ uu = "MI" then .ok (m / 1609.344)
        else if uu = "FT" then .ok (m * 3.28084)
        else if uu = "KM" then .ok (m / 1000)
        else if uu = "M" then .ok m
        else .err .noneReturn
    else .err .unitsError

/-- Truthiness of an optional stored int (`self._num and self._den`,
line 260): `None` and `0` are falsy. -/
def optTruthy : Option ℕ → Bool
  | none => false
  | some n => n != 0

/-- Unit word appended by `distance.string` (lines 271-278). -/
def unitWord (uu : String) : String :=
  if uu = "SM" ∨ uu = "MI" then " miles"
  else if uu = "M" then " meters"
  else if uu = "KM" then " km"
  else if uu = "FT" then " feet"
  else ""

/-- Qualifier text prepended by `distance.string` (lines 279-282) and by
`speed.string` (lines 179-182). -/
def gtltWrap (g : Option String) (t : String) : String :=
  if g = some ">" then "greater than " ++ t
  else if g = some "<" then "less than " ++ t
  else t

/-- `distance.string` (lines 252-283).  The fraction branch is taken when
`self._num` and `self._den` are truthy (non-`None` and nonzero) and the
requested unit equals the construction unit; `self._num/self._den` there is
Python 2 integer division. -/
def distString (d : Distance) (units : Option String := none) : PRes String :=
  let res : PRes String :=
    match units with
    | none => .ok d.units
    | some u =>
      if u = "" then .ok d.units
      else if upStr u ∈ distLegal then .ok (upStr u) else .err .unitsError
  PRes.bind res fun uu =>
    let body : PRes String :=
      if optTruthy d.num = true ∧ optTruthy d.den = true ∧ uu = d.units then
        let n := d.num.getD 0
        let k := d.den.getD 0
        let val := pyTrunc (d.value - ((n / k : ℕ) : ℚ))
        if val ≠ 0 then
          .ok (toString val ++ " " ++ toString n ++ "/" ++ toString k)
        else .ok (toString n ++ "/" ++ toString k)
      else
        PRes.bind (distValue d (some uu)) fun v =>
          if uu = "KM" then .ok (fmtFixed 1 v) else .ok (fmtFixed 0 v)
    PRes.bind body fun t => .ok (gtltWrap d.gtlt (t ++ unitWord uu))

/-! ## direction (source lines 286-324) -/

/-- `direction.compass_dirs` (lines 289-292). -/
def compassDirs : List (String × ℚ) :=
  [("N", 0.0), ("NNE", 22.5), ("NE", 45.0), ("ENE", 67.5),
   ("E", 90.0), ("ESE", 112.5), ("SE", 135.0), ("SSE", 157.5),
   ("S", 180.0), ("SSW", 202.5), ("SW", 225.0), ("WSW", 247.5),
   ("W", 270.0), ("WNW", 292.5), ("NW", 315.0), ("NNW", 337.5)]

/-- `compass_dirs.has_key(d)` plus `compass_dirs[d]`. -/
def lookupDir (s : String) : Option ℚ :=
  (compassDirs.find? (fun p => p.1 = s)).map (fun p => p.2)

/-- The dictionary scan of `direction.compass` (lines 320-323): the name
whose table degrees equal the bucket (the table values are distinct, so the
arbitrary Python 2 dict iteration order is immaterial). -/
def lookupName (deg : ℚ) : Option String :=
  (compassDirs.find? (fun p => p.2 = deg)).map (fun p => p.1)

/-- State of a `direction` instance. -/
structure Direction where
  compass : Option String
  degrees : ℚ
  deriving DecidableEq, Repr

/-- `direction.__init__` (lines 294-303). -/
def dirInit (d : String) : PRes Direction :=
  match lookupDir d with
  | some deg => .ok ⟨some d, deg⟩
  | none =>
    match pyFloat d with
    | none => .err .valueError
    | some v =>
      if v < 0.0 ∨ 360.0 < v then .err .valueError
      else .ok ⟨none, v⟩

/-- `direction.value` (lines 305-307). -/
def dirValue (d : Direction) : ℚ := d.degrees

/-- `direction.string` (lines 309-311). -/
def dirString (d : Direction) : String := fmtFixed 0 d.degrees ++ " degrees"

/-- `direction.compass` (lines 313-324); `if not self._compass:` — `None`
and the empty string trigger the computation.  Returns the (memoized)
label; `none` would mean the method returned Python `None`. -/
def dirCompass (d : Direction) : Option String :=
  if d.compass = none ∨ d.compass = some "" then
    let deg := 22.5 * (pyRound (d.degrees / 22.5) : ℚ)
    if deg = 360.0 then some "N" else lookupName deg
  else d.compass

/-- Helper: evaluate `⌊x⌋` from rational bounds. -/
theorem floorQ (x : ℚ) (f : ℤ) (h1 : (f : ℚ) ≤ x) (h2 : x < f + 1) : ⌊x⌋ = f := by
  rw [Int.floor_eq_iff]
  exact ⟨h1, by exact_mod_cast h2⟩

/-- Helper: evaluate `roundHalfEven` when the fractional part is below 1/2. -/
theorem rheLow (x : ℚ) (f : ℤ) (hf : ⌊x⌋ = f) (h : x - f < 1/2) : roundHalfEven x = f := by
  unfold roundHalfEven
  rw [hf, if_neg (not_lt.mpr h.le), if_pos h]

/-- Helper: evaluate `fmtFixed` on a nonnegative rational whose rounding is known. -/
theorem fmtFixedNonneg (p : ℕ) (q : ℚ) (n : ℤ) (h0 : 0 ≤ q)
    (h : roundHalfEven (q * (10 : ℚ) ^ p) = n) : fmtFixed p q = fmtScaled p n.toNat := by
  unfold fmtFixed
  rw [if_neg (not_lt.mpr h0), if_neg (not_lt.mpr h0), h]

/-! ## Claim theorems -/

/-- C1: the claim says `WindSpeed(v, "KMH").value("MPS") == v/3.6` and
`WindSpeed(v, "MPH").value("MPS") == v*0.447` with no failure for legal
units.  The code instead raises: the KMH branch divides the unit *string*
by 3.6 (`TypeError`) and the MPH branch assigns `mbs_value` but the target
dispatch reads the never-assigned `mps_value` (`NameError`).  Evaluated
here at the failing inputs `WindSpeed(10, "KMH")` / `WindSpeed(10, "MPH")`
converted to MPS. -/
theorem c1_speed_conversion_defect :
    speedInit (.num 10) (some "KMH") none = .ok ⟨"KMH", none, 10⟩ ∧
    speedValue ⟨"KMH", none, 10⟩ (some "MPS") = .err .typeError ∧
    speedInit (.num 10) (some "MPH") none = .ok ⟨"MPH", none, 10⟩ ∧
    speedValue ⟨"MPH", none, 10⟩ (some "MPS") = .err .nameError := by
  refine ⟨?_, ?_, ?_, ?_⟩ <;>
    simp +decide [speedInit, speedValue, speedLegal, upStr, upChar, gtltCheck,
      pyFloatConv, PRes.bind]

/-- C2: the claim says the Temperature constructor fails on every token
that is neither a decimal nor `M`+decimal, and that no partially
initialized instance is observable.  The code's `except ValueError` branch
silently does nothing for such tokens (e.g. `"XX"`): the constructor
returns an instance whose `_value` attribute was never set, and the later
`value()`/`string()` calls raise `AttributeError`. -/
theorem c2_temperature_partial_instance :
    pyFloat "XX" = none ∧
    tempInit (.str "XX") "C" = .ok ⟨"C", none⟩ ∧
    tempValue ⟨"C", none⟩ none = .err .attributeError ∧
    tempString ⟨"C", none⟩ none = .err .attributeError := by
  refine ⟨?_, ?_, ?_, ?_⟩ <;>
    simp +decide [tempInit, tempValue, tempString, tempLegal, upStr, upChar,
      pyFloat, pyFloatCore, trimWs, dropWs, takeDigits, parseSign, expPart,
      digitsToNat, PRes.bind]

/-- C3 counterexample: the empty string is not (even case-insensitively) a
member of any legal-unit set, yet supplying it as the construction unit of
a WindSpeed or Distance does not raise — `if not units:` treats it as
absent and silently selects the default unit ("MPS" / "M"); likewise
`speed.value("")` silently returns the raw value. -/
theorem c3_counterexample :
    upStr "" ∉ speedLegal ∧
    speedInit (.num 5) (some "") none = .ok ⟨"MPS", none, 5⟩ ∧
    upStr "" ∉ distLegal ∧
    distInit (.num 5) (some "") none = .ok ⟨"M", none, 5, none, none⟩ ∧
    speedValue ⟨"MPS", none, 5⟩ (some "") = .ok 5 := by
  refine ⟨?_, ?_, ?_, ?_, ?_⟩ <;>
    simp +decide [speedInit, speedValue, distInit, distUnitsResolve, stripQual,
      distParseNum, gtltCheck, speedLegal, distLegal, upStr, upChar,
      pyFloatConv, PRes.bind]

/-- C4 counterexample: the fraction grammar does not force a proper
fraction; the token `"5/4"` constructs successfully and stores numerator 5
with denominator 4, violating the claimed `numerator < denominator`. -/
theorem c4_counterexample :
    distInit (.str "5/4") (some "SM") none = .ok ⟨"SM", none, 5/4, some 5, some 4⟩ ∧
    ¬ (5 < 4) := by
  refine ⟨?_, by norm_num⟩
  simp +decide [distInit, distUnitsResolve, stripQual, stripQualL, distParseNum, gtltCheck,
    distLegal, upStr, upChar, pyFloatConv, pyFloat, pyFloatCore, trimWs, dropWs,
    takeDigits, takeWs, parseSign, expPart, digitsToNat, parseFraction, PRes.bind]

/-- C5 counterexample: `"0/4"` matches the fraction grammar, but
`string()` in the construction unit does not reproduce the fraction text:
`self._num` is `0`, which is falsy, so the numeric branch renders
`"0 miles"` instead of `"0/4 miles"`. -/
theorem c5_counterexample :
    distInit (.str "0/4") (some "SM") none = .ok ⟨"SM", none, 0, some 0, some 4⟩ ∧
    distString ⟨"SM", none, 0, some 0, some 4⟩ none = .ok "0 miles" ∧
    "0 miles" ≠ "0/4 miles" := by
  have hf : fmtFixed 0 (0 : ℚ) = "0" := by
    rw [fmtFixedNonneg 0 0 0 le_rfl
      (rheLow _ 0 (floorQ _ 0 (by norm_num) (by norm_num)) (by norm_num))]
    decide
  refine ⟨?_, ?_, by decide⟩
  · simp +decide [distInit, distUnitsResolve, stripQual, stripQualL, distParseNum, gtltCheck,
      distLegal, upStr, upChar, pyFloatConv, pyFloat, pyFloatCore, trimWs, dropWs,
      takeDigits, takeWs, parseSign, expPart, digitsToNat, parseFraction, PRes.bind]
  · simp +decide [distString, distValue, distLegal, upStr, upChar, optTruthy,
      unitWord, gtltWrap, PRes.bind, hf]

/-- Helper: a successfully resolved distance unit is legal. -/
theorem distUnitsResolve_legal {un : Option String} {uu : String}
    (h : distUnitsResolve un = .ok uu) : uu ∈ distLegal := by
  unfold distUnitsResolve at h
  repeat' split at h
  all_goals cases h
  all_goals first | decide | assumption

/-- Helper: a constructed Distance has a legal stored unit. -/
theorem distInit_legal {v : PyVal} {un g : Option String} {d : Distance}
    (h : distInit v un g = .ok d) : d.units ∈ distLegal := by
  unfold distInit PRes.bind at h
  cases hres : distUnitsResolve un with
  | err e => rw [hres] at h; dsimp only at h; cases h
  | ok uu =>
    rw [hres] at h; dsimp only at h
    cases hg : gtltCheck (stripQual v g).2 with
    | err e => rw [hg] at h; dsimp only at h; cases h
    | ok g2 =>
      rw [hg] at h; dsimp only at h
      cases hp : distParseNum (stripQual v g).1 with
      | err e => rw [hp] at h; dsimp only at h; cases h
      | ok x =>
        rw [hp] at h; dsimp only at h
        cases h
        exact distUnitsResolve_legal hres

/-- Helper: a constructed Pressure has a legal stored unit. -/
theorem pressureInit_legal {v : PyVal} {un : String} {p : Pressure}
    (h : pressureInit v un = .ok p) : p.units ∈ pressureLegal := by
  unfold pressureInit at h
  repeat' split at h
  all_goals cases h
  all_goals assumption

/-- Helper: a constructed Speed has a legal stored unit. -/
theorem speedInit_legal {v : PyVal} {un g : Option String} {s : Speed}
    (h : speedInit v un g = .ok s) : s.units ∈ speedLegal := by
  unfold speedInit PRes.bind at h
  cases un with
  | none =>
    dsimp only at h
    cases hg : gtltCheck g with
    | err e => rw [hg] at h; dsimp only at h; cases h
    | ok g2 =>
      rw [hg] at h; dsimp only at h
      cases hc : pyFloatConv v with
      | none => rw [hc] at h; dsimp only at h; cases h
      | some x => rw [hc] at h; dsimp only at h; cases h; exact (by decide : ("MPS" : String) ∈ speedLegal)
  | some u =>
    dsimp only at h
    by_cases he : u = ""
    · rw [if_pos he] at h; dsimp only at h
      cases hg : gtltCheck g with
      | err e => rw [hg] at h; dsimp only at h; cases h
      | ok g2 =>
        rw [hg] at h; dsimp only at h
        cases hc : pyFloatConv v with
        | none => rw [hc] at h; dsimp only at h; cases h
        | some x => rw [hc] at h; dsimp only at h; cases h; exact (by decide : ("MPS" : String) ∈ speedLegal)
    · rw [if_neg he] at h
      by_cases hl : upStr u ∈ speedLegal
      · rw [if_pos hl] at h; dsimp only at h
        cases hg : gtltCheck g with
        | err e => rw [hg] at h; dsimp only at h; cases h
        | ok g2 =>
          rw [hg] at h; dsimp only at h
          cases hc : pyFloatConv v with
          | none => rw [hc] at h; dsimp only at h; cases h
          | some x => rw [hc] at h; dsimp only at h; cases h; exact hl
      · rw [if_neg hl] at h; dsimp only at h; cases h

/-- C10: for Pressure, WindSpeed and Distance instances produced by the
constructors, `value(u)` with a unit that uppercases to the construction
unit returns the stored raw value unchanged (the code path
`if units == self._units: return self._value` performs no conversion
arithmetic), exactly as `value()` with no argument does. -/
theorem c10_value_identity :
    (∀ v un p, pressureInit v un = .ok p →
      pressureValue p none = .ok p.value ∧
      ∀ u2, upStr u2 = p.units → pressureValue p (some u2) = .ok p.value) ∧
    (∀ v un g s, speedInit v un g = .ok s →
      speedValue s none = .ok s.value ∧
      ∀ u2, upStr u2 = s.units → speedValue s (some u2) = .ok s.value) ∧
    (∀ v un g d, distInit v un g = .ok d →
      distValue d none = .ok d.value ∧
      ∀ u2, upStr u2 = d.units → distValue d (some u2) = .ok d.value) := by
  refine ⟨?_, ?_, ?_⟩
  · intro v un p h
    refine ⟨rfl, ?_⟩
    intro u2 hu2
    have hl : p.units ∈ pressureLegal := pressureInit_legal h
    simp [pressureValue, hu2, hl]
  · intro v un g s h
    refine ⟨rfl, ?_⟩
    intro u2 hu2
    have hl : s.units ∈ speedLegal := speedInit_legal h
    by_cases he : u2 = ""
    · subst he; simp [speedValue]
    · simp [speedValue, he, hu2, hl]
  · intro v un g d h
    refine ⟨rfl, ?_⟩
    intro u2 hu2
    have hl : d.units ∈ distLegal := distInit_legal h
    by_cases he : u2 = ""
    · subst he; simp [distValue]
    · simp [distValue, he, hu2, hl]

/-- C10 witness: concrete instances queried in their construction unit
(case-insensitively). -/
theorem c10_value_identity_witness :
    pressureValue ⟨"MB", 2⟩ (some "mb") = .ok 2 ∧
    speedValue ⟨"KMH", none, 10⟩ (some "kmh") = .ok 10 ∧
    distValue ⟨"M", none, 5, none, none⟩ (some "m") = .ok 5 := by
  have h := c10_value_identity
  refine ⟨(h.1 (.num 2) "MB" ⟨"MB", 2⟩ (by simp +decide [pressureInit, pressureLegal,
      upStr, upChar, pyFloatConv])).2 "mb" (by decide),
    (h.2.1 (.num 10) (some "KMH") none ⟨"KMH", none, 10⟩ (by simp +decide [speedInit,
      speedLegal, gtltCheck, upStr, upChar, pyFloatConv, PRes.bind])).2 "kmh" (by decide),
    (h.2.2 (.num 5) (some "M") none ⟨"M", none, 5, none, none⟩ (by simp +decide [distInit,
      distUnitsResolve, stripQual, distParseNum, gtltCheck, distLegal, upStr, upChar,
      pyFloatConv, PRes.bind])).2 "m" (by decide)⟩

/-- C3 amended: for every NONEMPTY unit string not (case-insensitively) in
a given kind's legal set, supplying it as the construction unit or as the
target unit of `value()`/`string()` of that kind raises `UnitsError`; the
empty string, however, is treated as an absent argument by the
speed/distance constructors and by the falsy `if not units:` checks (see
the counterexample). -/
theorem c3_amended (u : String) (hne : u ≠ "") :
    (upStr u ∉ tempLegal →
      (∀ v, tempInit v u = .err .unitsError) ∧
      (∀ t : Temperature, tempValue t (some u) = .err .unitsError) ∧
      (∀ t : Temperature, tempString t (some u) = .err .unitsError)) ∧
    (upStr u ∉ pressureLegal →
      (∀ v, pressureInit v u = .err .unitsError) ∧
      (∀ p : Pressure, pressureValue p (some u) = .err .unitsError) ∧
      (∀ p : Pressure, pressureString p (some u) = .err .unitsError)) ∧
    (upStr u ∉ speedLegal →
      (∀ v g, speedInit v (some u) g = .err .unitsError) ∧
      (∀ s : Speed, speedValue s (some u) = .err .unitsError) ∧
      (∀ s : Speed, speedString s (some u) = .err .unitsError)) ∧
    (upStr u ∉ distLegal →
      (∀ v g, distInit v (some u) g = .err .unitsError) ∧
      (∀ d : Distance, distValue d (some u) = .err .unitsError) ∧
      (∀ d : Distance, distString d (some u) = .err .unitsError)) := by
  refine ⟨fun hT => ⟨?_, ?_, ?_⟩, fun hP => ⟨?_, ?_, ?_⟩,
    fun hS => ⟨?_, ?_, ?_⟩, fun hD => ⟨?_, ?_, ?_⟩⟩ <;> intros <;>
    simp_all [tempInit, tempValue, tempString, pressureInit, pressureValue,
      pressureString, speedInit, speedValue, speedString, distInit,
      distUnitsResolve, distValue, distString, PRes.bind]

/-- C3 amended witness: per-kind illegal units — `"C"` (legal for
temperature, illegal for pressure), `"MB"` (legal for pressure, illegal
for temperature), and `"ATM"` (the spec's scenario 6). -/
theorem c3_amended_witness :
    pressureInit (.num 29.92) "C" = .err .unitsError ∧
    tempValue ⟨"C", some 5⟩ (some "MB") = .err .unitsError ∧
    speedValue ⟨"MPS", none, 5⟩ (some "ATM") = .err .unitsError ∧
    distString ⟨"M", none, 5, none, none⟩ (some "ATM") = .err .unitsError :=
  ⟨((c3_amended "C" (by decide)).2.1 (by decide)).1 (.num 29.92),
   ((c3_amended "MB" (by decide)).1 (by decide)).2.1 ⟨"C", some 5⟩,
   ((c3_amended "ATM" (by decide)).2.2.1 (by decide)).2.1 ⟨"MPS", none, 5⟩,
   ((c3_amended "ATM" (by decide)).2.2.2 (by decide)).2.2 ⟨"M", none, 5, none, none⟩⟩

/-- C9: a Distance token beginning with `'M'` (resp. `'P'`) has the prefix
stripped and forces the qualifier to less-than (resp. greater-than),
whatever qualifier argument was supplied; the remainder of the token is
then parsed as the numeric value.  The concrete instance shows a supplied
`">"` qualifier overridden by an `"M"` prefix. -/
theorem c9_distance_prefix_qualifier :
    (∀ (rest : String) (g : Option String),
      stripQual (.str ("M" ++ rest)) g = (.str rest, some "<")) ∧
    (∀ (rest : String) (g : Option String),
      stripQual (.str ("P" ++ rest)) g = (.str rest, some ">")) ∧
    (∀ (rest : String) (u g : Option String),
      distInit (.str ("M" ++ rest)) u g =
        PRes.bind (distUnitsResolve u) fun uu =>
          PRes.bind (distParseNum (.str rest)) fun x =>
            .ok ⟨uu, some "<", x.1, x.2.1, x.2.2⟩) ∧
    (∀ (rest : String) (u g : Option String),
      distInit (.str ("P" ++ rest)) u g =
        PRes.bind (distUnitsResolve u) fun uu =>
          PRes.bind (distParseNum (.str rest)) fun x =>
            .ok ⟨uu, some ">", x.1, x.2.1, x.2.2⟩) ∧
    distInit (.str "M2") (some "SM") (some ">") = .ok ⟨"SM", some "<", 2, none, none⟩ := by
  have hM : ∀ rest : String, ("M" ++ rest).data = 'M' :: rest.data := by
    intro rest
    rw [String.data_append]
    rfl
  have hP : ∀ rest : String, ("P" ++ rest).data = 'P' :: rest.data := by
    intro rest
    rw [String.data_append]
    rfl
  have hSM : ∀ (rest : String) (g : Option String),
      stripQual (.str ("M" ++ rest)) g = (.str rest, some "<") := by
    intro rest g
    unfold stripQual
    dsimp only
    rw [hM]
    rfl
  have hSP : ∀ (rest : String) (g : Option String),
      stripQual (.str ("P" ++ rest)) g = (.str rest, some ">") := by
    intro rest g
    unfold stripQual
    dsimp only
    rw [hP]
    rfl
  refine ⟨hSM, hSP, ?_, ?_, ?_⟩
  · intro rest u g
    unfold distInit
    rw [hSM rest g]
    rfl
  · intro rest u g
    unfold distInit
    rw [hSP rest g]
    rfl
  · simp +decide [distInit, distUnitsResolve, stripQual, stripQualL, distParseNum, gtltCheck,
      distLegal, upStr, upChar, pyFloatConv, pyFloat, pyFloatCore, trimWs, dropWs,
      takeDigits, takeWs, parseSign, expPart, digitsToNat, parseFraction, PRes.bind]

/-- Helper: dropping leading whitespace from a list ending in a
non-whitespace anchor keeps the anchor last. -/
theorem dropWs_anchor (c : Char) (hc : isWs c = false) :
    ∀ l : List Char, ∃ l2, dropWs (l ++ [c]) = l2 ++ [c] := by
  intro l
  induction l with
  | nil => exact ⟨[], by simp [dropWs, hc]⟩
  | cons a t ih =>
    by_cases ha : isWs a
    · obtain ⟨l2, hl2⟩ := ih
      exact ⟨l2, by simp [dropWs, ha, hl2]⟩
    · exact ⟨a :: t, by simp [dropWs, ha]⟩

/-- Helper: a float literal cannot start with `'M'`. -/
theorem pyFloatCore_M (cs : List Char) : pyFloatCore ('M' :: cs) = none := rfl

/-- Helper: `float(...)` fails on every token starting with `'M'`. -/
theorem pyFloat_M_none (rest : String) : pyFloat ("M" ++ rest) = none := by
  unfold pyFloat
  rw [show ("M" ++ rest).data = 'M' :: rest.data from by rw [String.data_append]; rfl]
  unfold trimWs
  rw [show dropWs ('M' :: rest.data) = 'M' :: rest.data from by simp [dropWs, isWs]]
  rw [List.reverse_cons]
  obtain ⟨l2, hl2⟩ := dropWs_anchor 'M' (by decide) rest.data.reverse
  rw [hl2, List.reverse_append]
  exact pyFloatCore_M _

/-- C7: a Temperature token beginning with `'M'` whose remainder parses as
the decimal `n` stores `-n` in the (validated) construction unit, and
`value()`/`string()` convert that negated value; in particular
`Temperature("M05", "C").value("F") == 23.0` and its string form is
`"23.0 F"`. -/
theorem c7_temperature_m_prefix :
    (∀ (rest : String) (n : ℚ) (u : String), pyFloat rest = some n →
      upStr u ∈ tempLegal → tempInit (.str ("M" ++ rest)) u = .ok ⟨upStr u, some (-n)⟩) ∧
    PRes.bind (tempInit (.str "M05") "C") (fun t => tempValue t (some "F")) = .ok 23 ∧
    PRes.bind (tempInit (.str "M05") "C") (fun t => tempString t (some "F")) = .ok "23.0 F" := by
  have hinit : tempInit (.str "M05") "C" = .ok ⟨"C", some (-5)⟩ := by
    simp +decide [tempInit, tempLegal, upStr, upChar, pyFloat, pyFloatCore, trimWs,
      dropWs, takeDigits, parseSign, expPart, digitsToNat]
  have hval : tempValue ⟨"C", some (-5)⟩ (some "F") = .ok 23 := by
    simp +decide [tempValue, tempLegal, upStr, upChar, PRes.bind]
    norm_num
  have hfmt : fmtFixed 1 (23 : ℚ) = "23.0" := by
    rw [fmtFixedNonneg 1 23 230 (by norm_num)
      (rheLow _ 230 (floorQ _ 230 (by norm_num) (by norm_num)) (by norm_num))]
    decide
  refine ⟨?_, ?_, ?_⟩
  · intro rest n u hr hu
    unfold tempInit
    rw [if_pos hu]
    dsimp only
    rw [pyFloat_M_none rest]
    dsimp only
    rw [show ("M" ++ rest).data = 'M' :: rest.data from by rw [String.data_append]; rfl]
    exact (by rw [hr] :
      (match pyFloat rest with
        | some x => (PRes.ok ⟨upStr u, some (-x)⟩ : PRes Temperature)
        | none => PRes.err .valueError) = PRes.ok ⟨upStr u, some (-n)⟩)
  · rw [hinit]
    exact hval
  · rw [hinit]
    show tempString ⟨"C", some (-5)⟩ (some "F") = .ok "23.0 F"
    simp +decide [tempString, tempLegal, upStr, upChar, PRes.bind, hval, hfmt]

/-- C7 witness: the general M-prefix rule applied at the concrete token
`"M05"` in unit `"C"`. -/
theorem c7_temperature_m_prefix_witness :
    tempInit (.str ("M" ++ "05")) "C" = .ok ⟨upStr "C", some (-5)⟩ :=
  c7_temperature_m_prefix.1 "05" 5 "C"
    (by simp +decide [pyFloat, pyFloatCore, trimWs, dropWs, takeDigits, parseSign,
      expPart, digitsToNat])
    (by decide)

/-- Helper: the whole part printed by the fraction branch of
`distance.string` — `int(value - num/den)` with Python 2 integer division —
recovers the integer part of the token. -/
theorem fracWhole (i n dd : ℕ) (hdd : dd ≠ 0) :
    pyTrunc ((n : ℚ) / dd + i - ((n / dd : ℕ) : ℚ)) = (i : ℤ) := by
  have hdpos : 0 < (dd : ℚ) := by exact_mod_cast Nat.pos_of_ne_zero hdd
  have h1 : ((n / dd : ℕ) : ℚ) ≤ (n : ℚ) / dd := by
    rw [le_div_iff₀ hdpos]
    exact_mod_cast Nat.div_mul_le_self n dd
  have h2 : (n : ℚ) / dd < ((n / dd : ℕ) : ℚ) + 1 := by
    rw [div_lt_iff₀ hdpos]
    have hstep : n < (n / dd + 1) * dd := by
      calc n = dd * (n / dd) + n % dd := (Nat.div_add_mod n dd).symm
        _ < dd * (n / dd) + dd := by
            have := Nat.mod_lt n (Nat.pos_of_ne_zero hdd)
            omega
        _ = (n / dd + 1) * dd := by ring
    exact_mod_cast hstep
  unfold pyTrunc
  rw [if_pos (by linarith)]
  exact floorQ _ (i : ℤ) (by push_cast; linarith) (by push_cast; linarith)

/-- C4 amended: every Distance constructed through the fraction grammar
stores a positive denominator (a zero denominator raises
`ZeroDivisionError`), and its raw value is exactly the token's integer
part plus numerator/denominator; `numerator < denominator` is NOT implied
by the grammar (see the counterexample `"5/4"`), but `0 ≤ numerator` holds
since the numerator is a digit string. -/
theorem c4_amended (s : String) (u g : Option String) (d : Distance)
    (h : distInit (.str s) u g = .ok d) (n dd : ℕ)
    (hn : d.num = some n) (hd : d.den = some dd) :
    0 < dd ∧ ∃ (s2 : String) (i : Option ℕ),
      (stripQual (.str s) g).1 = .str s2 ∧ pyFloat s2 = none ∧
      parseFraction s2 = some (i, n, dd) ∧
      d.value = ((i.getD 0 : ℕ) : ℚ) + (n : ℚ) / (dd : ℚ) := by
  have hstr : ∃ s2 g2, stripQual (.str s) g = (.str s2, g2) :=
    ⟨⟨(stripQualL s.data g).1⟩, (stripQualL s.data g).2, rfl⟩
  obtain ⟨s2, g2, hsq⟩ := hstr
  unfold distInit PRes.bind at h
  cases hres : distUnitsResolve u with
  | err e => rw [hres] at h; dsimp only at h; cases h
  | ok uu =>
    rw [hres] at h; dsimp only at h
    rw [hsq] at h; dsimp only at h
    cases hg : gtltCheck g2 with
    | err e => rw [hg] at h; dsimp only at h; cases h
    | ok g3 =>
      rw [hg] at h; dsimp only at h
      unfold distParseNum at h
      rw [show pyFloatConv (.str s2) = pyFloat s2 from rfl] at h
      cases hpf : pyFloat s2 with
      | some q => rw [hpf] at h; dsimp only at h; cases h; cases hn
      | none =>
        rw [hpf] at h; dsimp only at h
        cases hparse : parseFraction s2 with
        | none => rw [hparse] at h; dsimp only at h; cases h
        | some t =>
          obtain ⟨i, nn, den⟩ := t
          rw [hparse] at h; dsimp only at h
          by_cases hdz : den = 0
          · rw [if_pos hdz] at h; cases h
          · rw [if_neg hdz] at h
            cases h
            cases hn
            cases hd
            refine ⟨Nat.pos_of_ne_zero hdz, s2, i, by rw [hsq], hpf, hparse, ?_⟩
            exact add_comm _ _

/-- C4 amended witness: the rule applied to the constructed token
`"1 3/4"`. -/
theorem c4_amended_witness :
    0 < 4 ∧ ∃ (s2 : String) (i : Option ℕ),
      (stripQual (.str "1 3/4") none).1 = .str s2 ∧ pyFloat s2 = none ∧
      parseFraction s2 = some (i, 3, 4) ∧
      (⟨"SM", none, 3/4 + 1, some 3, some 4⟩ : Distance).value =
        ((i.getD 0 : ℕ) : ℚ) + ((3 : ℕ) : ℚ) / ((4 : ℕ) : ℚ) :=
  c4_amended "1 3/4" (some "SM") none ⟨"SM", none, 3/4 + 1, some 3, some 4⟩
    (by simp +decide [distInit, distUnitsResolve, stripQual, stripQualL, distParseNum,
      gtltCheck, distLegal, upStr, upChar, pyFloatConv, pyFloat, pyFloatCore, trimWs,
      dropWs, takeDigits, takeWs, parseSign, expPart, digitsToNat, parseFraction,
      PRes.bind])
    3 4 rfl rfl

/-- Helper: `distance.value` succeeds on every legal target unit distinct
from the stored unit (whatever the stored unit is). -/
theorem distValue_ok_of_legal (d : Distance) (w : String) (hw : w ∈ distLegal)
    (hne : w ≠ d.units) : ∃ v, distValue d (some w) = .ok v := by
  fin_cases hw <;> simp +decide [distValue, distLegal, upStr, upChar, hne]

/-- Helper: `distance.string` with an explicit unit argument that
uppercases to the (legal) construction unit behaves exactly as with no
argument — both resolve to the stored unit before any rendering. -/
theorem distString_unit_arg_eq (d : Distance) (u2 : String) (hne2 : u2 ≠ "")
    (hup : upStr u2 = d.units) (hleg : d.units ∈ distLegal) :
    distString d (some u2) = distString d none := by
  unfold distString PRes.bind
  dsimp only
  rw [if_neg hne2, hup, if_pos hleg]

/-- C5 amended: a Distance built from a fraction token with NONZERO
numerator re-renders, in its construction unit (requested explicitly in
any case variant or left implicit), exactly the token's fraction text —
`"<whole> <num>/<den>"` when the token's integer part is nonzero,
`"<num>/<den>"` otherwise — plus the unit word and any qualifier prefix,
while `string()` with a different legal unit renders the converted value
numerically (`"%.1f"` for KM, `"%.0f"` otherwise) plus the unit word; in
particular `Distance("1 3/4", "SM")` renders `"1 3/4 miles"` and has
value 1.75.  (A zero numerator instead takes the numeric branch: see the
counterexample.) -/
theorem c5_amended :
    (∀ (s s2 : String) (u g : Option String) (d : Distance) (i : Option ℕ) (n dd : ℕ),
      distInit (.str s) u g = .ok d →
      (stripQual (.str s) g).1 = .str s2 →
      pyFloat s2 = none → parseFraction s2 = some (i, n, dd) →
      n ≠ 0 →
      distString d none = .ok
        (gtltWrap d.gtlt
          ((if i.getD 0 ≠ 0 then
              toString ((i.getD 0 : ℕ) : ℤ) ++ " " ++ toString n ++ "/" ++ toString dd
            else toString n ++ "/" ++ toString dd) ++ unitWord d.units)) ∧
      (∀ u2 : String, u2 ≠ "" → upStr u2 = d.units →
        distString d (some u2) = .ok
          (gtltWrap d.gtlt
            ((if i.getD 0 ≠ 0 then
                toString ((i.getD 0 : ℕ) : ℤ) ++ " " ++ toString n ++ "/" ++ toString dd
              else toString n ++ "/" ++ toString dd) ++ unitWord d.units)))) ∧
    distInit (.str "1 3/4") (some "SM") none = .ok ⟨"SM", none, 3/4 + 1, some 3, some 4⟩ ∧
    distString ⟨"SM", none, 3/4 + 1, some 3, some 4⟩ none = .ok "1 3/4 miles" ∧
    distValue ⟨"SM", none, 3/4 + 1, some 3, some 4⟩ none = .ok (7/4) ∧
    (∀ (d : Distance) (n dd : ℕ) (u : String),
      d.num = some n → d.den = some dd → n ≠ 0 → dd ≠ 0 →
      u ≠ "" → upStr u ∈ distLegal → upStr u ≠ d.units →
      ∃ v2, distValue d (some (upStr u)) = .ok v2 ∧
        distString d (some u) = .ok
          (gtltWrap d.gtlt
            ((if upStr u = "KM" then fmtFixed 1 v2 else fmtFixed 0 v2) ++
              unitWord (upStr u)))) := by
  refine ⟨?_, ?_, ?_, ?_, ?_⟩
  · intro s s2 u g d i n dd h hs2 hpf hparse hn0
    unfold distInit PRes.bind at h
    cases hres : distUnitsResolve u with
    | err e => rw [hres] at h; dsimp only at h; cases h
    | ok uu =>
      rw [hres] at h; dsimp only at h
      rw [hs2] at h
      cases hg : gtltCheck (stripQual (.str s) g).2 with
      | err e => rw [hg] at h; try dsimp only at h; cases h
      | ok g3 =>
        rw [hg] at h; try dsimp only at h
        unfold distParseNum at h
        rw [show pyFloatConv (.str s2) = pyFloat s2 from rfl, hpf] at h
        try dsimp only at h
        rw [hparse] at h
        try dsimp only at h
        by_cases hdz : dd = 0
        · rw [if_pos hdz] at h; cases h
        · rw [if_neg hdz] at h
          try dsimp only at h
          cases h
          have hleg : uu ∈ distLegal := distUnitsResolve_legal hres
          have hnone : distString
              (⟨uu, g3, (n : ℚ) / dd + ((i.getD 0 : ℕ) : ℚ),
                some n, some dd⟩ : Distance) none = .ok
              (gtltWrap g3
                ((if i.getD 0 ≠ 0 then
                    toString ((i.getD 0 : ℕ) : ℤ) ++ " " ++ toString n ++ "/" ++ toString dd
                  else toString n ++ "/" ++ toString dd) ++ unitWord uu)) := by
            unfold distString PRes.bind
            try dsimp only
            rw [if_pos ⟨by simp [optTruthy, hn0], by simp [optTruthy, hdz], rfl⟩]
            simp only [Option.getD_some]
            try dsimp only
            rw [fracWhole (i.getD 0) n dd hdz]
            by_cases hI : i.getD 0 = 0
            · simp [hI]
            · simp [hI, Int.natCast_eq_zero]
          refine ⟨hnone, ?_⟩
          intro u2 hne2 hup
          rw [distString_unit_arg_eq _ u2 hne2 hup hleg]
          exact hnone
  · simp +decide [distInit, distUnitsResolve, stripQual, stripQualL, distParseNum,
      gtltCheck, distLegal, upStr, upChar, pyFloatConv, pyFloat, pyFloatCore, trimWs,
      dropWs, takeDigits, takeWs, parseSign, expPart, digitsToNat, parseFraction,
      PRes.bind]
  · have hpt : pyTrunc (3/4 + 1 : ℚ) = 1 := by
      unfold pyTrunc
      rw [if_pos (by norm_num)]
      exact floorQ _ 1 (by norm_num) (by norm_num)
    simp +decide [distString, distValue, distLegal, upStr, upChar, optTruthy,
      unitWord, gtltWrap, PRes.bind, hpt]
  · simp +decide [distValue, PRes.bind]
    norm_num
  · intro d n dd u hn hdd hn0 hdd0 hne hl hneq
    obtain ⟨v2, hv2⟩ := distValue_ok_of_legal d (upStr u) hl hneq
    refine ⟨v2, hv2, ?_⟩
    unfold distString PRes.bind
    try dsimp only
    rw [if_neg hne, if_pos hl]
    try dsimp only
    rw [if_neg (fun hc => hneq hc.2.2)]
    try dsimp only
    rw [hv2]
    try dsimp only
    by_cases hkm : upStr u = "KM" <;> simp [hkm]

/-- C5 amended witness: the fraction-rendering rule applied to the
qualified instance constructed from `"M1 3/4"` (prefix stripped, qualifier
forced to less-than), requested explicitly in its construction unit as
`"sm"`, and the numeric rule applied to an unqualified instance with
target unit `"M"`. -/
theorem c5_amended_witness :
    (distString ⟨"SM", some "<", 3/4 + 1, some 3, some 4⟩ (some "sm") = .ok
      (gtltWrap (⟨"SM", some "<", 3/4 + 1, some 3, some 4⟩ : Distance).gtlt
        ((if (some 1 : Option ℕ).getD 0 ≠ 0 then
            toString (((some 1 : Option ℕ).getD 0 : ℕ) : ℤ) ++ " " ++
              toString (3 : ℕ) ++ "/" ++ toString (4 : ℕ)
          else toString (3 : ℕ) ++ "/" ++ toString (4 : ℕ)) ++
          unitWord (⟨"SM", some "<", 3/4 + 1, some 3, some 4⟩ : Distance).units))) ∧
    (∃ v2, distValue ⟨"SM", none, 3/4 + 1, some 3, some 4⟩ (some (upStr "m")) = .ok v2 ∧
      distString ⟨"SM", none, 3/4 + 1, some 3, some 4⟩ (some "m") = .ok
        (gtltWrap (⟨"SM", none, 3/4 + 1, some 3, some 4⟩ : Distance).gtlt
          ((if upStr "m" = "KM" then fmtFixed 1 v2 else fmtFixed 0 v2) ++
            unitWord (upStr "m")))) :=
  ⟨(c5_amended.1 "M1 3/4" "1 3/4" (some "SM") (some ">")
      ⟨"SM", some "<", 3/4 + 1, some 3, some 4⟩ (some 1) 3 4
      (by simp +decide [distInit, distUnitsResolve, stripQual, stripQualL, distParseNum,
        gtltCheck, distLegal, upStr, upChar, pyFloatConv, pyFloat, pyFloatCore, trimWs,
        dropWs, takeDigits, takeWs, parseSign, expPart, digitsToNat, parseFraction,
        PRes.bind])
      (by decide)
      (by simp +decide [pyFloat, pyFloatCore, trimWs, dropWs, takeDigits, parseSign,
        expPart, digitsToNat])
      (by decide) (by decide)).2 "sm" (by decide) (by decide),
    c5_amended.2.2.2.2 ⟨"SM", none, 3/4 + 1, some 3, some 4⟩ 3 4 "m" rfl rfl
      (by decide) (by decide) (by decide) (by decide) (by decide)⟩

/-- Helper: every bucket `k ∈ [0,16]` resolves to a 16-point name
(bucket 16, i.e. 360 degrees, resolving to `"N"`). -/
theorem bucketName (k : ℤ) (hk0 : 0 ≤ k) (hk17 : k < 17) :
    ∃ nm, (if (22.5 : ℚ) * (k : ℚ) = 360.0 then some "N"
           else lookupName ((22.5 : ℚ) * (k : ℚ))) = some nm := by
  interval_cases k
  · exact ⟨"N", by norm_num [lookupName, compassDirs, List.find?]⟩
  · exact ⟨"NNE", by norm_num [lookupName, compassDirs, List.find?]⟩
  · exact ⟨"NE", by norm_num [lookupName, compassDirs, List.find?]⟩
  · exact ⟨"ENE", by norm_num [lookupName, compassDirs, List.find?]⟩
  · exact ⟨"E", by norm_num [lookupName, compassDirs, List.find?]⟩
  · exact ⟨"ESE", by norm_num [lookupName, compassDirs, List.find?]⟩
  · exact ⟨"SE", by norm_num [lookupName, compassDirs, List.find?]⟩
  · exact ⟨"SSE", by norm_num [lookupName, compassDirs, List.find?]⟩
  · exact ⟨"S", by norm_num [lookupName, compassDirs, List.find?]⟩
  · exact ⟨"SSW", by norm_num [lookupName, compassDirs, List.find?]⟩
  · exact ⟨"SW", by norm_num [lookupName, compassDirs, List.find?]⟩
  · exact ⟨"WSW", by norm_num [lookupName, compassDirs, List.find?]⟩
  · exact ⟨"W", by norm_num [lookupName, compassDirs, List.find?]⟩
  · exact ⟨"WNW", by norm_num [lookupName, compassDirs, List.find?]⟩
  · exact ⟨"NW", by norm_num [lookupName, compassDirs, List.find?]⟩
  · exact ⟨"NNW", by norm_num [lookupName, compassDirs, List.find?]⟩
  · exact ⟨"N", by norm_num [lookupName, compassDirs, List.find?]⟩

/-- C6: CompassDirection.  (a) Every name token constructs directly with
its table degrees, `compass()` returns the name and `value()` the degrees.
(b) Every numeric construction has degrees in `[0, 360]`; `compass()`
computes the bucket `round(degrees/22.5)` which (degrees being nonnegative)
is exactly the round-half-UP `⌊degrees/22.5 + 1/2⌋` — so exact midpoints
resolve to the higher bucket — maps bucket value 360 back to `"N"` and
otherwise returns the table name of the bucket value, which always exists.
(c) The spec's concrete scenarios. -/
theorem c6_compass :
    (∀ (nm : String) (deg : ℚ), (nm, deg) ∈ compassDirs →
      dirInit nm = .ok ⟨some nm, deg⟩ ∧ dirCompass ⟨some nm, deg⟩ = some nm ∧
      dirValue ⟨some nm, deg⟩ = deg) ∧
    (∀ (s : String) (dir : Direction), dirInit s = .ok dir → dir.compass = none →
      0 ≤ dir.degrees ∧ dir.degrees ≤ 360 ∧
      pyRound (dir.degrees / 22.5) = ⌊dir.degrees / 22.5 + 1/2⌋ ∧
      dirCompass dir =
        (if (22.5 : ℚ) * (⌊dir.degrees / 22.5 + 1/2⌋ : ℚ) = 360.0 then some "N"
         else lookupName ((22.5 : ℚ) * (⌊dir.degrees / 22.5 + 1/2⌋ : ℚ))) ∧
      ∃ nm, dirCompass dir = some nm) ∧
    dirInit "NE" = .ok ⟨some "NE", 45.0⟩ ∧
    dirCompass ⟨some "NE", 45.0⟩ = some "NE" ∧
    dirValue ⟨some "NE", 45.0⟩ = 45.0 ∧
    dirInit "25" = .ok ⟨none, 25⟩ ∧
    dirCompass ⟨none, 25⟩ = some "NNE" := by
  refine ⟨?_, ?_, ?_, ?_, ?_, ?_, ?_⟩
  · intro nm deg hmem
    fin_cases hmem <;> exact ⟨rfl, rfl, rfl⟩
  · intro s dir h hc
    unfold dirInit at h
    cases hl : lookupDir s with
    | some deg => rw [hl] at h; cases h; simp at hc
    | none =>
      rw [hl] at h; dsimp only at h
      cases hp : pyFloat s with
      | none => rw [hp] at h; cases h
      | some v =>
        rw [hp] at h; dsimp only at h
        by_cases hr : v < 0.0 ∨ 360.0 < v
        · rw [if_pos hr] at h; cases h
        · rw [if_neg hr] at h
          cases h
          have h0 : (0 : ℚ) ≤ v := by
            have := fun hlt => hr (Or.inl hlt)
            norm_num at this
            linarith
          have h1 : v ≤ 360 := by
            have := fun hlt => hr (Or.inr hlt)
            norm_num at this
            linarith
          have hpr : pyRound (v / 22.5) = ⌊v / 22.5 + 1/2⌋ := by
            unfold pyRound
            rw [if_pos (div_nonneg h0 (by norm_num))]
          have hcomp : dirCompass ⟨none, v⟩ =
              (if (22.5 : ℚ) * (⌊v / 22.5 + 1/2⌋ : ℚ) = 360.0 then some "N"
               else lookupName ((22.5 : ℚ) * (⌊v / 22.5 + 1/2⌋ : ℚ))) := by
            unfold dirCompass
            rw [if_pos (Or.inl rfl)]
            dsimp only
            rw [hpr]
          refine ⟨h0, h1, hpr, hcomp, ?_⟩
          have hdiv : v / 22.5 ≤ 16 := by
            rw [div_le_iff₀ (by norm_num : (0 : ℚ) < 22.5)]
            linarith
          have hk0 : 0 ≤ ⌊v / 22.5 + 1/2⌋ := by
            apply Int.floor_nonneg.mpr
            have : (0 : ℚ) ≤ v / 22.5 := div_nonneg h0 (by norm_num)
            linarith
          have hk17 : ⌊v / 22.5 + 1/2⌋ < 17 := by
            apply Int.floor_lt.mpr
            push_cast
            linarith
          rw [hcomp]
          exact bucketName ⌊v / 22.5 + 1/2⌋ hk0 hk17
  · rfl
  · rfl
  · rfl
  · simp +decide [dirInit, lookupDir, compassDirs, pyFloat, pyFloatCore, trimWs,
      dropWs, takeDigits, parseSign, expPart, digitsToNat]
    norm_num
  · have hpr : pyRound ((25 : ℚ) / 22.5) = 1 := by
      unfold pyRound
      rw [if_pos (by norm_num)]
      exact floorQ _ 1 (by norm_num) (by norm_num)
    unfold dirCompass
    rw [if_pos (Or.inl rfl)]
    dsimp only
    rw [hpr]
    norm_num [lookupName, compassDirs, List.find?]

/-- C6 witness: the name rule at `("NE", 45)` and the numeric rule at the
instance constructed from `"25"`. -/
theorem c6_compass_witness :
    (dirInit "NE" = .ok ⟨some "NE", 45.0⟩ ∧ dirCompass ⟨some "NE", 45.0⟩ = some "NE" ∧
      dirValue ⟨some "NE", 45.0⟩ = 45.0) ∧
    (0 ≤ (⟨none, 25⟩ : Direction).degrees ∧ (⟨none, 25⟩ : Direction).degrees ≤ 360 ∧
      pyRound ((⟨none, 25⟩ : Direction).degrees / 22.5) =
        ⌊(⟨none, 25⟩ : Direction).degrees / 22.5 + 1/2⌋ ∧
      dirCompass ⟨none, 25⟩ =
        (if (22.5 : ℚ) * (⌊(⟨none, 25⟩ : Direction).degrees / 22.5 + 1/2⌋ : ℚ) = 360.0
         then some "N"
         else lookupName ((22.5 : ℚ) * (⌊(⟨none, 25⟩ : Direction).degrees / 22.5 + 1/2⌋ : ℚ))) ∧
      ∃ nm, dirCompass ⟨none, 25⟩ = some nm) :=
  ⟨c6_compass.1 "NE" 45.0
     (List.mem_cons_of_mem _ (List.mem_cons_of_mem _ (List.mem_cons_self _ _))),
   c6_compass.2.1 "25" ⟨none, 25⟩
     (by simp +decide [dirInit, lookupDir, compassDirs, pyFloat, pyFloatCore, trimWs,
           dropWs, takeDigits, parseSign, expPart, digitsToNat]
         norm_num)
     rfl⟩
